import Mathlib

/-!
Verification development for the obra-auto-catalog repository: a shallow
embedding of its data model (src/types.ts), persistent store
(src/services/db.ts), pricing rule (src/services/initialData.ts and the
product editor of src/pages/Admin/Dashboard.tsx), the admin bulk handlers,
the public catalog filters (src/unnamed/part_003) and the catalog PDF row
selection (src/utils/pdfGenerator.ts and src/unnamed/part_000).

Numbers: JavaScript numeric fields are modelled as rationals (ℚ); the
source formulas `Math.ceil(x * 1.1)` become `⌈x * (11/10)⌉` over ℚ.
Browser storage is modelled as the parsed collection (a list), and the
outcome of the underlying `localStorage.setItem` call is an explicit
`Except StorageFailure Unit` parameter; thrown JavaScript errors become
`Except String` results.
-/

/-- Mirrors the `Product` interface of src/types.ts.  `category` is a plain
string there (the `ProductCategory` enum is an enum of string values). -/
structure Product where
  id : String
  code : String
  name : String
  category : String
  originalPrice : ℚ
  sellingPrice : ℚ
  dimensions : Option String
  description : Option String
  images : List String
  isLocked : Bool
  isActive : Bool
  stock : Option ℚ
deriving DecidableEq, Repr

/-- Mirrors `CustomerDetails` of src/types.ts. -/
structure CustomerDetails where
  name : String
  company : String
  email : String
  phone : String
  address : String
deriving DecidableEq, Repr

/-- Mirrors `CartItem extends Product { quantity: number }` of src/types.ts. -/
structure CartItem extends Product where
  quantity : ℚ
deriving DecidableEq, Repr

/-- The four string literals of the `status` union in src/types.ts. -/
inductive QuoteStatus where
  | Draft
  | Sent
  | Approved
  | Rejected
deriving DecidableEq, Repr

/-- Mirrors the `Quotation` interface of src/types.ts. -/
structure Quotation where
  id : String
  number : String
  date : String
  customer : CustomerDetails
  items : List CartItem
  subtotal : ℚ
  deliveryFee : ℚ
  discount : ℚ
  paymentMethod : Option String
  grandTotal : ℚ
  status : QuoteStatus
deriving DecidableEq, Repr

/-! ## Pricing rule (src/services/initialData.ts line 4) -/

/-- `const calculateMarkup = (price: number) => Math.ceil(price * 1.10);` -/
def calculateMarkup (price : ℚ) : ℚ := ((⌈price * (11 / 10)⌉ : ℤ) : ℚ)

/-! ## Persistent store (src/services/db.ts)

The serialized collection under a storage key is modelled by the list it
parses to.  The outcome of the raw `localStorage.setItem` call is an
explicit parameter of type `Except StorageFailure Unit`; `safeSetItem`
maps a quota failure to the user-facing message and rethrows anything
else, exactly as lines 12-22 of src/services/db.ts do. -/

/-- A failure of the underlying `localStorage.setItem` write: either one of
the quota-exceeded conditions recognised by `safeSetItem`, or any other
thrown error (carried as its message). -/
inductive StorageFailure where
  | quotaExceeded
  | other (msg : String)
deriving DecidableEq, Repr

/-- The message thrown by `safeSetItem` on a quota-exceeded condition
(src/services/db.ts line 18). -/
def quotaMessage : String :=
  "Storage Full! Your images are too large. Please use smaller images (under 500KB) or delete old products/quotes to free up space."

/-- src/services/db.ts lines 12-22: try the write; translate a
quota-exceeded error into the user-facing message, rethrow anything else. -/
def safeSetItem (write : Except StorageFailure Unit) : Except String Unit :=
  match write with
  | .ok _ => .ok ()
  | .error .quotaExceeded => .error quotaMessage
  | .error (.other m) => .error m

/-- db.products.getAll (src/services/db.ts lines 42-44): parse the stored
collection (an absent slot parses to `[]`, which is the `[]` state). -/
def productsGetAll (st : List Product) : List Product := st

/-- db.products.getById (src/services/db.ts lines 45-48). -/
def productsGetById (st : List Product) (id : String) : Option Product :=
  (productsGetAll st).find? (fun p => p.id == id)

/-- db.products.add (src/services/db.ts lines 49-53): push, then persist
through `safeSetItem`. -/
def productsAdd (write : Except StorageFailure Unit) (st : List Product)
    (product : Product) : Except String (List Product) := do
  let products := productsGetAll st ++ [product]
  safeSetItem write
  return products

/-- db.products.update (src/services/db.ts lines 54-61): replace the first
element whose id matches and persist; if no index matches, return without
touching storage (and without calling `safeSetItem` at all). -/
def productsUpdate (write : Except StorageFailure Unit) (st : List Product)
    (product : Product) : Except String (List Product) :=
  let products := productsGetAll st
  match products.findIdx? (fun p => p.id == product.id) with
  | some index => do
      safeSetItem write
      return products.set index product
  | none => .ok products

/-- db.products.delete (src/services/db.ts lines 62-66). -/
def productsDelete (write : Except StorageFailure Unit) (st : List Product)
    (id : String) : Except String (List Product) := do
  let filtered := (productsGetAll st).filter (fun p => p.id != id)
  safeSetItem write
  return filtered

/-- db.products.saveAll (src/services/db.ts lines 67-69). -/
def productsSaveAll (write : Except StorageFailure Unit)
    (products : List Product) : Except String (List Product) := do
  safeSetItem write
  return products

/-- db.quotations.getAll (src/services/db.ts lines 72-74). -/
def quotationsGetAll (st : List Quotation) : List Quotation := st

/-- db.quotations.add (src/services/db.ts lines 75-79). -/
def quotationsAdd (write : Except StorageFailure Unit) (st : List Quotation)
    (quote : Quotation) : Except String (List Quotation) := do
  let quotes := quotationsGetAll st ++ [quote]
  safeSetItem write
  return quotes

/-- db.quotations.update (src/services/db.ts lines 80-87): same shape as
the products update. -/
def quotationsUpdate (write : Except StorageFailure Unit) (st : List Quotation)
    (quote : Quotation) : Except String (List Quotation) :=
  let quotes := quotationsGetAll st
  match quotes.findIdx? (fun q => q.id == quote.id) with
  | some index => do
      safeSetItem write
      return quotes.set index quote
  | none => .ok quotes

/-- db.quotations.delete (src/services/db.ts lines 88-92). -/
def quotationsDelete (write : Except StorageFailure Unit) (st : List Quotation)
    (id : String) : Except String (List Quotation) := do
  let filtered := (quotationsGetAll st).filter (fun q => q.id != id)
  safeSetItem write
  return filtered

/-! ## Seed data (src/services/initialData.ts) -/

/-- getImgForCategory (src/services/initialData.ts lines 6-26): the lookup
table keyed by the category's string value, falling back to the image of
the "Other" category. -/
def getImgForCategory (cat : String) : String :=
  if cat = "Executive Table" then "1518455027359-f3f8164ba6bd"
  else if cat = "Office Table" then "1497215842964-222b4bef9726"
  else if cat = "Conference Table" then "1611269154421-4e27233ac5c7"
  else if cat = "Workstation" then "1497215842964-222b4bef9726"
  else if cat = "Reception Desk" then "1518455027359-f3f8164ba6bd"
  else if cat = "Filing Cabinet" then "1522204523234-8729aa6e3d5f"
  else if cat = "Mobile Pedestal" then "1522204523234-8729aa6e3d5f"
  else if cat = "Office Chair" then "1580480055273-228ff5388ef8"
  else if cat = "Gang Chair" then "1505330622279-bf7d7fc918f4"
  else if cat = "Sofa" then "1555041469-a586c61ea9bc"
  else if cat = "Locker" then "1522204523234-8729aa6e3d5f"
  else if cat = "Storage Rack" then "1595514020176-23b93df2df73"
  else if cat = "Home Furniture" then "1555041469-a586c61ea9bc"
  else if cat = "Dining Furniture" then "1555041469-a586c61ea9bc"
  else if cat = "Outdoor Furniture" then "1505330622279-bf7d7fc918f4"
  else "1518455027359-f3f8164ba6bd"

/-- createProduct (src/services/initialData.ts lines 28-55): every seed
record is locked, active, and priced through `calculateMarkup`. -/
def createProduct (id code name : String) (category : String) (price : ℚ)
    (dim desc features : String) : Product :=
  let imgId := getImgForCategory category
  { id := id
    code := code
    name := name
    category := category
    originalPrice := price
    sellingPrice := calculateMarkup price
    dimensions := some dim
    description := some (desc ++ ". " ++ features)
    images :=
      ["https://images.unsplash.com/photo-" ++ imgId ++ "?auto=format&fit=crop&q=80&w=800",
       "https://images.unsplash.com/photo-" ++ imgId ++ "?auto=format&fit=crop&q=80&w=801"]
    isLocked := true
    isActive := true
    stock := none }

/-- INITIAL_PRODUCTS (src/services/initialData.ts lines 57-160): the fixed
reference list of 38 locked seed records. -/
def INITIAL_PRODUCTS : List Product :=
  [createProduct "p1" "944EOT NKT-031 1.8M" "Executive Glass Top Table" "Executive Table" 32470 "Front: L180xW80xH76cm" "Modern contemporary design" "Tempered glass, Stainless steel leg",
   createProduct "p2" "944EOT NKT-031 1.6M" "Executive Glass Top Table" "Executive Table" 28560 "Front: L160xW80xH76cm" "Modern contemporary design" "Tempered glass, Stainless steel leg",
   createProduct "p3" "NKT-003 1.8M" "Executive Glass Top Table" "Executive Table" 26211 "L180xW80xH76cm" "12mm thickness tempered glass" "Mobile pedestal included",
   createProduct "p4" "NKT-003 1.6M" "Executive Glass Top Table" "Executive Table" 25542 "L160xW80xH76cm" "12mm thickness tempered glass" "Mobile pedestal included",
   createProduct "p5" "JA A03-20" "Executive Table" "Executive Table" 29364 "Table: 1200cm x W80cm x H75cm" "High-tech vacuum forming process" "Combi-lock system",
   createProduct "p6" "JA A02-20" "Executive Table" "Executive Table" 24685 "Table: L180cm x W80cm x H75cm" "Exquisite leather processing" "Push to open cabinet",
   createProduct "p7" "SH102-16" "Executive Table" "Executive Table" 23066 "L160cm x W72cm x H75cm" "Melamine finish" "Combi-lock drawer",
   createProduct "p8" "SH102-18" "Executive Table" "Executive Table" 24197 "L180cm x W72cm x H75cm" "Melamine finish" "Combi-lock drawer",
   createProduct "p9" "SQ 17162M" "Executive Table" "Executive Table" 24500 "L200cm x W80cm x H76cm" "Side drawers with safety lock" "Grommet",
   createProduct "p10" "SQ 17161.8M" "Executive Table" "Executive Table" 23400 "L180cm x W80cm x H76cm" "Side drawers with safety lock" "Grommet",
   createProduct "p11" "SQ 17811.8M" "Executive Table" "Executive Table" 18200 "L180cm x W80cm x H76cm" "Mobile Pedestal included" "Keyboard tray",
   createProduct "p12" "50,6116" "Executive Table" "Executive Table" 16750 "L160cm x W80cm x H76cm" "Melamine finish" "Keyboard tray",
   createProduct "p13" "M12TR147 1.4M" "Executive Table" "Executive Table" 14110 "L140cm x W70cm x H75cm" "Metal frame in painting" "Extension table",
   createProduct "p14" "M12TR147 2M" "Executive Table" "Executive Table" 17675 "L200cm x W80cm x H75cm" "Metal frame in painting" "Extension table",
   createProduct "p15" "LPMA27 SET 1.6M" "Executive Table Set" "Executive Table" 17740 "L160cm x W80cm x H75cm" "Durable steel frame" "Mobile pedestal",
   createProduct "p16" "50,7904" "L-Type Office Table" "Office Table" 9600 "Table: L140cm x W60cm x H75cm" "System unit bin" "Side drawers with combi-lock",
   createProduct "p17" "OT1415" "L-Type Office Table" "Office Table" 10700 "L120cm x W60cm x H75cm" "Side shelves" "Wide leg room",
   createProduct "p18" "Nkt 001 1.4M" "Glass Top Office Table" "Office Table" 10135 "L140cm x W70cm x H75cm" "12mm tempered glass" "Gang lock system",
   createProduct "p19" "AM$7907" "Foldable Table" "Office Table" 4975 "L120cm x W60cm x H75cm" "MDF board" "Durable caster wheels",
   createProduct "p20" "OT 614" "Jr. Office Table" "Office Table" 8250 "L140cm x W70cm x H75cm" "Melamine wood" "Soft-close cabinet",
   createProduct "p21" "ODK1A" "Office Metal Table" "Office Table" 12400 "L120cm x W60cm x H75cm" "MDF Table top" "Powder-coated metal stand",
   createProduct "p22" "WLS-066" "Metal Rack" "Storage Rack" 5145 "L90cm x W45cm x H183cm" "Powder Coated finish" "120kg per shelf",
   createProduct "p23" "WLS-067" "Metal Rack" "Storage Rack" 6195 "L120cm x W45cm x H183cm" "Powder Coated finish" "120kg per shelf",
   createProduct "p24" "DGD4" "Filing Cabinet" "Filing Cabinet" 8000 "L62cm x W46xH134cm" "Powder coating finish" "Superior gang lock",
   createProduct "p25" "3L-B6" "Locker Cabinet" "Locker" 13830 "L90cm x W35xH185cm" "18 doors" "High quality steel",
   createProduct "p26" "JA-R01-24" "Reception Desk / Counter Table" "Reception Desk" 21945 "L240cm x W70xH105cm" "LED light" "Soft close drawer",
   createProduct "p27" "JA-C02-24" "Conference Table" "Conference Table" 32745 "L240cm x W100xH75cm" "Curved edges table top" "Grommet",
   createProduct "p28" "SQ-1707" "Workstation" "Workstation" 25000 "L240cm x W120xH75cm" "Four seating capacity" "Cabinet storage",
   createProduct "p29" "GC5STR 5-seater" "Airport Gang Chair" "Gang Chair" 10970 "L286cm x W68xH77cm" "Steel arm and leg frame" "Chrome plated",
   createProduct "p30" "YS946-6 B1K" "Fabric Office Chair" "Office Chair" 2670 "L56cm x W46xH6cm" "Upholstered in fabric" "360 swivel",
   createProduct "p31" "3009B" "Jr. Executive Leatherette Chair" "Office Chair" 6790 "L56cm x W51xH104cm" "Upholstered in leather" "Padded armrest",
   createProduct "p32" "430FJNS3Y" "Executive Mesh Chair with Footrest" "Office Chair" 11735 "L55cm x W51xH112cm" "Reclining backrest" "Foot rest",
   createProduct "p33" "DZ 603" "Home Furniture - Sofa Bed" "Sofa" 11075 "L196cm x W98xH19cm" "Back & seat with fabric cover" "Extendable function",
   createProduct "p34" "TERRY" "Home Furniture - Dining Set" "Dining Furniture" 62000 "Table: L160xW90xH75cm" "6-seater" "Marble top, Solid wood frame",
   createProduct "p35" "SOFT-AMF-5526" "Electric Adjustable Office Table" "Office Table" 12000 "Adjustable Height" "Digital control panel" "Single motor",
   createProduct "p36" "OFF-A1816" "L-type Executive Table" "Executive Table" 22200 "160W x 80D x 75H cm" "LED front accord design" "Wire management",
   createProduct "p37" "SFC-G108" "12 Door Steel Locker" "Locker" 9550 "185H x 90W x 40D cm" "Acid washed phosphatized" "Card holder",
   createProduct "p38" "SFR-H08" "5 Layers Adjustable Steel Rack" "Storage Rack" 5150 "1830H x 1200W x 457D mm" "Steel powder coating" "5 adjustable shelves"]

/-! ## Store initialization (src/services/db.ts lines 25-38) -/

/-- One conditional seed write of initDB: when the slot is absent, write
the seed through `safeSetItem`; the result is the slot content afterwards
together with the thrown error, if any (a failed write leaves the slot
absent). -/
def seedSlot {T : Type} (write : Except StorageFailure Unit)
    (slot : Option (List T)) (seed : List T) : Option (List T) × Option String :=
  match slot with
  | some xs => (some xs, none)
  | none =>
      match safeSetItem write with
      | .ok _ => (some seed, none)
      | .error e => (none, some e)

/-- initDB (src/services/db.ts lines 25-32): seed the products slot from
INITIAL_PRODUCTS and the quotations slot from the empty list; an
exception from the first write aborts before the second slot is touched.
The result is both slots plus the error that escaped initDB, if any. -/
def initDB (writeP writeQ : Except StorageFailure Unit)
    (productsSlot : Option (List Product)) (quotationsSlot : Option (List Quotation)) :
    (Option (List Product) × Option (List Quotation)) × Option String :=
  match seedSlot writeP productsSlot INITIAL_PRODUCTS with
  | (ps, some e) => ((ps, quotationsSlot), some e)
  | (ps, none) =>
      match seedSlot writeQ quotationsSlot ([] : List Quotation) with
      | (qs, e) => ((ps, qs), e)

/-- The module top level of src/services/db.ts lines 34-38: initDB runs
inside try/catch; a failure is logged and swallowed, so the application
continues with whatever the slots now hold (an absent slot parses to `[]`
on the next getAll). -/
def initDBCaught (writeP writeQ : Except StorageFailure Unit)
    (productsSlot : Option (List Product)) (quotationsSlot : Option (List Quotation)) :
    Option (List Product) × Option (List Quotation) :=
  (initDB writeP writeQ productsSlot quotationsSlot).1

/-! ## Admin dashboard handlers (src/pages/Admin/Dashboard.tsx and the two
earlier revisions of the same component, src/unnamed/part_001 and
src/unnamed/part_002) -/

/-- setPrimaryImage of src/unnamed/part_001 lines 344-351; the identical
splice-and-unshift body appears as handleSetPrimary in
src/pages/Admin/Dashboard.tsx lines 304-310 and inline in the set-primary
button of src/unnamed/part_002 lines 368-371.  A splice at an in-range
index removes exactly that element, so in range it is `eraseIdx`; the
button is only rendered for existing indices. -/
def setPrimaryImage (images : List String) (index : Nat) : List String :=
  match images[index]? with
  | some selected => selected :: images.eraseIdx index
  | none => images

/-- The edit paths of the product editing modal in
src/pages/Admin/Dashboard.tsx (lines 572-757): one constructor per
onChange/onClick handler that rewrites the `editingProduct` draft. -/
inductive EditorAction where
  | setName (s : String)
  | setCode (s : String)
  | setCategory (s : String)
  | setDimensions (s : String)
  | setDescription (s : String)
  | setOriginalPrice (v : ℚ)
  | addImageUrl (input : String)
  | uploadImages (dataUrls : List String)
  | setPrimary (idx : Nat)
  | removeImage (idx : Nat)
  | aiGenerateImage (dataUrl : String)
  | aiEnhanceDescription (text : String)
deriving DecidableEq, Repr

/-- The draft update performed by each edit path of the product editor.
The originalPrice handler (Dashboard.tsx lines 614-621) writes
`originalPrice: val, sellingPrice: Math.ceil(val * 1.1)`; the URL path
(handleAddImageUrl, lines 271-281) trims, requires an `http` prefix,
de-duplicates and appends; uploads append; handleSetPrimary and the
gallery delete button splice the image list; the AI image handler (line
80) prepends; the AI description handler (line 143) stores the trimmed
text.  There is no handler writing `sellingPrice` from user input: the
selling-price box (lines 626-633) is a read-only display. -/
def applyEdit (a : EditorAction) (p : Product) : Product :=
  match a with
  | .setName s => { p with name := s }
  | .setCode s => { p with code := s }
  | .setCategory s => { p with category := s }
  | .setDimensions s => { p with dimensions := some s }
  | .setDescription s => { p with description := some s }
  | .setOriginalPrice v =>
      { p with originalPrice := v, sellingPrice := ((⌈v * (11 / 10)⌉ : ℤ) : ℚ) }
  | .addImageUrl input =>
      let url := input.trim
      if url = "" || !url.startsWith "http" then p
      else if p.images.contains url then p
      else { p with images := p.images ++ [url] }
  | .uploadImages dataUrls => { p with images := p.images ++ dataUrls }
  | .setPrimary idx => { p with images := setPrimaryImage p.images idx }
  | .removeImage idx => { p with images := p.images.eraseIdx idx }
  | .aiGenerateImage dataUrl => { p with images := dataUrl :: p.images }
  | .aiEnhanceDescription text => { p with description := some text.trim }

/-- handleBulkDelete of src/pages/Admin/Dashboard.tsx lines 192-198 (after
the confirm dialog): keep exactly the products whose id is not in the
selected set. -/
def handleBulkDelete (products : List Product) (selectedIds : List String) :
    List Product :=
  products.filter (fun p => !(selectedIds.contains p.id))

/-- handleBulkDelete of src/unnamed/part_001 lines 262-268: keep the
products that are unselected or locked. -/
def handleBulkDeletePart001 (products : List Product) (selectedIds : List String) :
    List Product :=
  products.filter (fun p => !(selectedIds.contains p.id) || p.isLocked)

/-- handleSaveQuote of src/pages/Admin/Dashboard.tsx lines 261-269: the
grand total is recomputed as `subtotal + (deliveryFee || 0) - (discount
|| 0)` (the `|| 0` fallbacks are the identity on our total numeric
fields) and the quote is persisted through db.quotations.update.  The
same computation, without the fallbacks, is handleSaveQuote of
src/unnamed/part_001 lines 229-238 and src/unnamed/part_002 lines
177-185. -/
def handleSaveQuote (write : Except StorageFailure Unit) (st : List Quotation)
    (editingQuote : Quotation) : Except String (List Quotation) :=
  let total := editingQuote.subtotal + editingQuote.deliveryFee - editingQuote.discount
  quotationsUpdate write st { editingQuote with grandTotal := total }

/-! ## Public catalog page (src/unnamed/part_003) and ProductCard
(src/components/ProductCard.tsx) -/

/-- Character-list prefix test (auxiliary for the substring model). -/
def charsPrefB : List Char → List Char → Bool
  | [], _ => true
  | _ :: _, [] => false
  | a :: xs, b :: ys => a == b && charsPrefB xs ys

/-- Character-list contiguous-substring test (auxiliary). -/
def charsInfB (sub : List Char) : List Char → Bool
  | [] => charsPrefB sub []
  | b :: ys => charsPrefB sub (b :: ys) || charsInfB sub ys

/-- JavaScript `s.toLowerCase()`, as per-character lowercasing of the
character list. -/
def jsToLower (s : String) : List Char := s.toList.map Char.toLower

/-- JavaScript `s.toLowerCase().includes(sub.toLowerCase())`, the match
primitive of every search filter in this repository. -/
def lowerIncludes (s sub : String) : Bool := charsInfB (jsToLower sub) (jsToLower s)

/-- The `filteredProducts` derivation of the first Catalog revision in
src/unnamed/part_003 (lines 50-55): a search match on lowercased name or
code, AND-combined with the category selection (the sentinel "All"
selects everything). -/
def catalogFilteredProducts (products : List Product)
    (searchTerm selectedCategory : String) : List Product :=
  products.filter (fun product =>
    let matchesSearch :=
      lowerIncludes product.name searchTerm ||
      lowerIncludes product.code searchTerm
    let matchesCategory :=
      selectedCategory == "All" || product.category == selectedCategory
    matchesSearch && matchesCategory)

/-- The filter effect of the second Catalog revision in
src/unnamed/part_003 (lines 248-265): first restrict by category (unless
"All"), then, only when the query is non-empty, by a lowercased substring
match on name, code or category. -/
def catalogFilterEffect (products : List Product)
    (selectedCategory searchQuery : String) : List Product :=
  let result := products
  let result :=
    if selectedCategory != "All" then
      result.filter (fun p => p.category == selectedCategory)
    else result
  if searchQuery != "" then
    result.filter (fun p =>
      lowerIncludes p.name searchQuery ||
      lowerIncludes p.code searchQuery ||
      lowerIncludes p.category searchQuery)
  else result

/-- src/components/ProductCard.tsx lines 55-61: the "Out of Stock" overlay
is rendered exactly when the product is inactive. -/
def productCardShowsOverlay (product : Product) : Bool := !product.isActive

/-- src/components/ProductCard.tsx line 95: the add-to-cart button is
disabled exactly when the product is inactive. -/
def productCardAddDisabled (product : Product) : Bool := !product.isActive

/-! ## Catalog PDF export (src/utils/pdfGenerator.ts and the earlier
revision src/unnamed/part_000) -/

/-- The `sortBy` union of CatalogExportOptions
(src/utils/pdfGenerator.ts line 146). -/
inductive SortKey where
  | name
  | category
  | priceAsc
  | priceDesc
  | code
deriving DecidableEq, Repr

/-- CatalogExportOptions (src/utils/pdfGenerator.ts lines 140-147); every
field is optional in the source, hence `Option` here. -/
structure CatalogExportOptions where
  includeDescription : Option Bool
  includeDimensions : Option Bool
  includeOriginalPrice : Option Bool
  includeSellingPrice : Option Bool
  includeCategory : Option Bool
  sortBy : Option SortKey
deriving DecidableEq, Repr

/-- The comparator of generateCatalogPDF (src/utils/pdfGenerator.ts lines
173-181) as the corresponding "a sorts no later than b" relation; the
string `localeCompare` is modelled by lexicographic string order. -/
def catalogLe (sortBy : SortKey) (a b : Product) : Prop :=
  match sortBy with
  | .category => a.category ≤ b.category
  | .priceAsc => a.sellingPrice ≤ b.sellingPrice
  | .priceDesc => b.sellingPrice ≤ a.sellingPrice
  | .code => a.code ≤ b.code
  | .name => a.name ≤ b.name

instance (sortBy : SortKey) : DecidableRel (catalogLe sortBy) := by
  intro a b
  cases sortBy <;> dsimp [catalogLe] <;> infer_instance

/-- The products that produce rows of the catalog PDF table, in emitted
order (src/utils/pdfGenerator.ts lines 170-215): the active products,
sorted by the chosen key (default name); the forEach then pushes exactly
one row per listed product, whatever the column options. -/
def generateCatalogRows (products : List Product)
    (options : CatalogExportOptions) : List Product :=
  List.insertionSort (catalogLe (options.sortBy.getD .name))
    (products.filter (fun p => p.isActive))

/-- The products that produce rows in the earlier generateCatalogPDF of
src/unnamed/part_000 (lines 165-178): the active products in stored
order. -/
def generateCatalogRowsPart000 (products : List Product) : List Product :=
  products.filter (fun p => p.isActive)

/-! ## Concrete sample values used by witnesses and counterexamples -/

/-- A manual (unlocked, active) product with three images. -/
def sampleProduct : Product :=
  { id := "m1"
    code := "MC-1"
    name := "Mesh Chair"
    category := "Office Chair"
    originalPrice := 1000
    sellingPrice := 1100
    dimensions := none
    description := none
    images := ["a", "b", "c"]
    isLocked := false
    isActive := true
    stock := none }

/-- A locked product, as seeded from the reference catalog. -/
def lockedProduct : Product :=
  { sampleProduct with id := "p1", code := "LK-1", isLocked := true }

/-- An inactive (hidden) product. -/
def inactiveProduct : Product :=
  { sampleProduct with id := "i1", code := "IN-1", isActive := false }

/-- A concrete customer record. -/
def sampleCustomer : CustomerDetails :=
  { name := "Ana", company := "Acme", email := "ana@acme.ph", phone := "0917", address := "Manila" }

/-- The quotation of the spec's clamping scenario: subtotal 5000,
deliveryFee 300, discount 6000. -/
def sampleQuote : Quotation :=
  { id := "q1"
    number := "Q-001"
    date := "2024-01-01"
    customer := sampleCustomer
    items := []
    subtotal := 5000
    deliveryFee := 300
    discount := 6000
    paymentMethod := none
    grandTotal := 5300
    status := .Draft }

/-- First of three products sharing the id "d1" (for first-match update
demonstrations). -/
def productV1 : Product := { sampleProduct with id := "d1", name := "Version One" }

/-- Second product with the id "d1". -/
def productV2 : Product := { sampleProduct with id := "d1", name := "Version Two" }

/-- Replacement product with the id "d1". -/
def productV3 : Product := { sampleProduct with id := "d1", name := "Version Three" }

/-- First of three quotations sharing the id "qd1". -/
def quoteV1 : Quotation := { sampleQuote with id := "qd1", number := "A" }

/-- Second quotation with the id "qd1". -/
def quoteV2 : Quotation := { sampleQuote with id := "qd1", number := "B" }

/-- Replacement quotation with the id "qd1". -/
def quoteV3 : Quotation := { sampleQuote with id := "qd1", number := "C" }

/-! ## Claim theorems -/

/-- Claim C1, amended: for every quotation saved through handleSaveQuote,
the persisted grandTotal equals `subtotal + deliveryFee - discount`
without any clamping at zero; the record stored through
db.quotations.update replaces the first stored quotation with a matching
id. -/
theorem C1_saveQuote_persists_unclamped_total (st : List Quotation)
    (q : Quotation) (i : Nat)
    (h : st.findIdx? (fun r => r.id == q.id) = some i) :
    handleSaveQuote (.ok ()) st q
      = .ok (st.set i { q with grandTotal := q.subtotal + q.deliveryFee - q.discount }) := by
  unfold handleSaveQuote quotationsUpdate quotationsGetAll
  dsimp only
  rw [h]
  rfl

/-- Witness for C1: the amended statement evaluated on the spec's own
scenario quote (subtotal 5000, deliveryFee 300, discount 6000) stored as
the only record. -/
theorem C1_saveQuote_persists_unclamped_total_witness :
    handleSaveQuote (.ok ()) [sampleQuote] sampleQuote
      = .ok ([sampleQuote].set 0
          { sampleQuote with
              grandTotal := sampleQuote.subtotal + sampleQuote.deliveryFee - sampleQuote.discount }) :=
  C1_saveQuote_persists_unclamped_total [sampleQuote] sampleQuote 0 (by decide)

/-- Counterexample to C1 as stated: on the spec's own scenario (subtotal
5000, deliveryFee 300, discount 6000, both adjustments non-negative) the
edit path persists grandTotal = -700, whereas the claimed invariant
max(0, subtotal + deliveryFee - discount) evaluates to 0. -/
theorem C1_counterexample :
    handleSaveQuote (.ok ()) [sampleQuote] sampleQuote
      = .ok [{ sampleQuote with grandTotal := -700 }]
    ∧ (0 : ℚ) ≤ sampleQuote.deliveryFee
    ∧ (0 : ℚ) ≤ sampleQuote.discount
    ∧ (-700 : ℚ)
        ≠ max 0 (sampleQuote.subtotal + sampleQuote.deliveryFee - sampleQuote.discount) := by
  refine ⟨?_, by decide, by decide, ?_⟩
  · simp [handleSaveQuote, quotationsUpdate, quotationsGetAll, safeSetItem,
      List.findIdx?_cons, sampleQuote]
    norm_num
  · simp only [sampleQuote]
    norm_num

/-- Claim C2: the bulk delete of src/pages/Admin/Dashboard.tsx deletes a
locked product whose id is selected (its filter keeps only unselected
ids), while the bulk delete of the earlier revision src/unnamed/part_001
keeps it, as the spec demands: evaluated at a single locked product whose
id is in the selected set. -/
theorem C2_bulkDelete_deletes_locked :
    lockedProduct.isLocked = true
    ∧ handleBulkDelete [lockedProduct] [lockedProduct.id] = []
    ∧ handleBulkDeletePart001 [lockedProduct] [lockedProduct.id] = [lockedProduct] := by
  decide

/-- Claim C3, amended: there is no edit path that sets sellingPrice
directly, and originalPrice is never recomputed from sellingPrice: every
editor action either leaves both price fields unchanged, or is the
originalPrice edit, which stores the entered value and derives
sellingPrice = ceil(value * 1.1). -/
theorem C3_only_originalPrice_edit_touches_prices (a : EditorAction) (p : Product) :
    ((applyEdit a p).originalPrice = p.originalPrice ∧
      (applyEdit a p).sellingPrice = p.sellingPrice)
    ∨ ∃ v, a = EditorAction.setOriginalPrice v ∧
        (applyEdit a p).originalPrice = v ∧
        (applyEdit a p).sellingPrice = calculateMarkup v := by
  cases a with
  | setName s => exact Or.inl ⟨rfl, rfl⟩
  | setCode s => exact Or.inl ⟨rfl, rfl⟩
  | setCategory s => exact Or.inl ⟨rfl, rfl⟩
  | setDimensions s => exact Or.inl ⟨rfl, rfl⟩
  | setDescription s => exact Or.inl ⟨rfl, rfl⟩
  | setOriginalPrice v => exact Or.inr ⟨v, rfl, rfl, rfl⟩
  | addImageUrl input =>
      refine Or.inl ⟨?_, ?_⟩ <;> (simp only [applyEdit]; split_ifs <;> rfl)
  | uploadImages dataUrls => exact Or.inl ⟨rfl, rfl⟩
  | setPrimary idx => exact Or.inl ⟨rfl, rfl⟩
  | removeImage idx => exact Or.inl ⟨rfl, rfl⟩
  | aiGenerateImage dataUrl => exact Or.inl ⟨rfl, rfl⟩
  | aiEnhanceDescription text => exact Or.inl ⟨rfl, rfl⟩

/-- Counterexample to C3 as stated: no editor action changes sellingPrice
to 1050 while storing originalPrice = 955 (the claim's own instance);
the only action that changes sellingPrice at all is the originalPrice
edit, and entering 955 there yields sellingPrice 1051, not 1050. -/
theorem C3_counterexample :
    ¬ ∃ (a : EditorAction) (p : Product),
        (applyEdit a p).sellingPrice ≠ p.sellingPrice ∧
        (applyEdit a p).sellingPrice = 1050 ∧
        (applyEdit a p).originalPrice = 955 := by
  rintro ⟨a, p, hchanged, hsell, horig⟩
  have hceil : ((⌈(955 : ℚ) * (11 / 10)⌉ : ℤ) : ℚ) = 1051 := by
    rw [show ((1051 : ℚ)) = ((1051 : ℤ) : ℚ) by norm_num]
    norm_cast
    rw [Int.ceil_eq_iff]
    constructor <;> norm_num
  cases a with
  | setName s => exact hchanged rfl
  | setCode s => exact hchanged rfl
  | setCategory s => exact hchanged rfl
  | setDimensions s => exact hchanged rfl
  | setDescription s => exact hchanged rfl
  | setOriginalPrice v =>
      simp only [applyEdit] at hsell horig
      subst horig
      rw [hceil] at hsell
      norm_num at hsell
  | addImageUrl input =>
      refine hchanged ?_
      simp only [applyEdit]
      split_ifs <;> rfl
  | uploadImages dataUrls => exact hchanged rfl
  | setPrimary idx => exact hchanged rfl
  | removeImage idx => exact hchanged rfl
  | aiGenerateImage dataUrl => exact hchanged rfl
  | aiEnhanceDescription text => exact hchanged rfl

/-- Claim C4, amended: an inactive stored product that matches the search
and category predicates is still a member of the public catalog's
displayed list (the filter never consults isActive); it is rendered with
the ProductCard Out of Stock overlay and a disabled add-to-cart button
instead of being excluded. -/
theorem C4_inactive_still_listed (products : List Product) (q c : String)
    (p : Product) (hmem : p ∈ products) (hin : p.isActive = false)
    (hsearch : (lowerIncludes p.name q || lowerIncludes p.code q) = true)
    (hcat : (c == "All" || p.category == c) = true) :
    p ∈ catalogFilteredProducts products q c
    ∧ productCardShowsOverlay p = true
    ∧ productCardAddDisabled p = true := by
  refine ⟨?_, ?_, ?_⟩
  · simp only [catalogFilteredProducts]
    apply List.mem_filter.mpr
    refine ⟨hmem, ?_⟩
    show ((lowerIncludes p.name q || lowerIncludes p.code q)
        && (c == "All" || p.category == c)) = true
    rw [hsearch, hcat]
    rfl
  · simp [productCardShowsOverlay, hin]
  · simp [productCardAddDisabled, hin]

/-- Witness for C4's amended statement: the concrete inactive product,
empty query, category "All". -/
theorem C4_inactive_still_listed_witness :
    inactiveProduct ∈ catalogFilteredProducts [inactiveProduct] "" "All"
    ∧ productCardShowsOverlay inactiveProduct = true
    ∧ productCardAddDisabled inactiveProduct = true :=
  C4_inactive_still_listed [inactiveProduct] "" "All" inactiveProduct
    (by decide) (by decide) (by decide) (by decide)

/-- Counterexample to C4 as stated: a stored product with isActive =
false is NOT excluded from the displayed list — both Catalog revisions
return it for the empty query and the "All" category, while it indeed
remains in the stored collection. -/
theorem C4_counterexample :
    inactiveProduct.isActive = false
    ∧ catalogFilteredProducts [inactiveProduct] "" "All" = [inactiveProduct]
    ∧ catalogFilterEffect [inactiveProduct] "All" "" = [inactiveProduct]
    ∧ productsGetAll [inactiveProduct] = [inactiveProduct] := by
  decide

/-- Claim C5: for every cost >= 0, the selling price derived from a base
cost — by calculateMarkup in the seed data and by the originalPrice
change handler of the product editor — equals ceil(cost * 1.1), and this
derived price is at least the cost. -/
theorem C5_fromCost_is_ceil_and_ge_cost (cost : ℚ) (h : 0 ≤ cost) (p : Product) :
    calculateMarkup cost = ((⌈cost * (11 / 10)⌉ : ℤ) : ℚ)
    ∧ (applyEdit (.setOriginalPrice cost) p).sellingPrice = calculateMarkup cost
    ∧ cost ≤ calculateMarkup cost := by
  refine ⟨rfl, rfl, ?_⟩
  show cost ≤ ((⌈cost * (11 / 10)⌉ : ℤ) : ℚ)
  have h1 : cost ≤ cost * (11 / 10) := by nlinarith
  exact h1.trans (Int.le_ceil (cost * (11 / 10)))

/-- Witness for C5 at cost = 1000 on the sample product. -/
theorem C5_fromCost_is_ceil_and_ge_cost_witness :
    calculateMarkup 1000 = ((⌈(1000 : ℚ) * (11 / 10)⌉ : ℤ) : ℚ)
    ∧ (applyEdit (.setOriginalPrice 1000) sampleProduct).sellingPrice = calculateMarkup 1000
    ∧ (1000 : ℚ) ≤ calculateMarkup 1000 :=
  C5_fromCost_is_ceil_and_ge_cost 1000 (by decide) sampleProduct

/-- Claim C6: for 0 < k < length, the set-primary operation keeps the
length, puts the old index-k element at index 0, and the remaining
elements are exactly the original list with index k removed, in their
original relative order. -/
theorem C6_setPrimary_moves_to_front (images : List String) (k : Nat)
    (h0 : 0 < k) (hk : k < images.length) :
    (setPrimaryImage images k).length = images.length
    ∧ (setPrimaryImage images k)[0]? = images[k]?
    ∧ (setPrimaryImage images k).drop 1 = images.take k ++ images.drop (k + 1) := by
  have hget : images[k]? = some images[k] := List.getElem?_eq_getElem hk
  have hval : setPrimaryImage images k = images[k] :: images.eraseIdx k := by
    unfold setPrimaryImage
    rw [hget]
  rw [hval, hget]
  refine ⟨?_, ?_, ?_⟩
  · show (images.eraseIdx k).length + 1 = images.length
    exact List.length_eraseIdx_add_one hk
  · simp
  · show images.eraseIdx k = images.take k ++ images.drop (k + 1)
    exact List.eraseIdx_eq_take_drop_succ images k

/-- Witness for C6 on the three-element list at k = 1. -/
theorem C6_setPrimary_moves_to_front_witness :
    (setPrimaryImage ["a", "b", "c"] 1).length = (["a", "b", "c"] : List String).length
    ∧ (setPrimaryImage ["a", "b", "c"] 1)[0]? = (["a", "b", "c"] : List String)[1]?
    ∧ (setPrimaryImage ["a", "b", "c"] 1).drop 1
        = (["a", "b", "c"] : List String).take 1 ++ (["a", "b", "c"] : List String).drop 2 :=
  C6_setPrimary_moves_to_front ["a", "b", "c"] 1 (by decide) (by decide)

/-- Claim C7: when no stored record shares the new record's id, add
followed by getAll contains the new record exactly once; and after
delete(id), getAll contains no record with that id. -/
theorem C7_add_once_delete_none (st : List Product) (x : Product) (id : String)
    (h : ∀ p ∈ st, p.id ≠ x.id) :
    (∃ ps, productsAdd (.ok ()) st x = .ok ps ∧ (productsGetAll ps).count x = 1)
    ∧ (∃ ps, productsDelete (.ok ()) st id = .ok ps ∧
        ∀ p ∈ productsGetAll ps, p.id ≠ id) := by
  constructor
  · refine ⟨productsGetAll st ++ [x], rfl, ?_⟩
    have hx : x ∉ st := fun hmem => h x hmem rfl
    simp [productsGetAll, List.count_append, List.count_eq_zero.mpr hx]
  · refine ⟨(productsGetAll st).filter (fun p => p.id != id), rfl, ?_⟩
    intro p hp
    have hmem := (List.mem_filter.mp hp).2
    simpa using hmem

/-- Witness for C7: adding the sample product to a store holding only the
locked product, and deleting the id "m1". -/
theorem C7_add_once_delete_none_witness :
    (∃ ps, productsAdd (.ok ()) [lockedProduct] sampleProduct = .ok ps
        ∧ (productsGetAll ps).count sampleProduct = 1)
    ∧ (∃ ps, productsDelete (.ok ()) [lockedProduct] "m1" = .ok ps ∧
        ∀ p ∈ productsGetAll ps, p.id ≠ "m1") :=
  C7_add_once_delete_none [lockedProduct] sampleProduct "m1" (by decide)

/-- Claim C8: update with an id matching no stored record is a silent
no-op for both db.products.update and db.quotations.update — no error is
raised, whatever the underlying write would have done, and the stored
collection is returned unchanged; when a match exists, exactly the first
matching position is replaced. -/
theorem C8_update_missing_is_silent_noop (write : Except StorageFailure Unit)
    (stP : List Product) (stQ : List Quotation) (x : Product) (y : Quotation) :
    ((∀ p ∈ stP, p.id ≠ x.id) → productsUpdate write stP x = .ok stP)
    ∧ ((∀ q ∈ stQ, q.id ≠ y.id) → quotationsUpdate write stQ y = .ok stQ)
    ∧ (∀ i, stP.findIdx? (fun p => p.id == x.id) = some i →
        productsUpdate (.ok ()) stP x = .ok (stP.set i x))
    ∧ (∀ j, stQ.findIdx? (fun q => q.id == y.id) = some j →
        quotationsUpdate (.ok ()) stQ y = .ok (stQ.set j y)) := by
  refine ⟨?_, ?_, ?_, ?_⟩
  · intro h
    have hnone : stP.findIdx? (fun p => p.id == x.id) = none := by
      rw [List.findIdx?_eq_none_iff]
      intro p hp
      simpa using h p hp
    simp only [productsUpdate, productsGetAll]
    rw [hnone]
  · intro h
    have hnone : stQ.findIdx? (fun q => q.id == y.id) = none := by
      rw [List.findIdx?_eq_none_iff]
      intro q hq
      simpa using h q hq
    simp only [quotationsUpdate, quotationsGetAll]
    rw [hnone]
  · intro i hi
    simp only [productsUpdate, productsGetAll]
    rw [hi]
    rfl
  · intro j hj
    simp only [quotationsUpdate, quotationsGetAll]
    rw [hj]
    rfl

/-- Witness for C8: a missed update on each store leaves it unchanged
without error, and an update matching two stored records replaces only
the first. -/
theorem C8_update_missing_is_silent_noop_witness :
    productsUpdate (.error .quotaExceeded) [lockedProduct] sampleProduct = .ok [lockedProduct]
    ∧ quotationsUpdate (.error .quotaExceeded) [] sampleQuote = .ok []
    ∧ productsUpdate (.ok ()) [productV1, productV2] productV3
        = .ok ([productV1, productV2].set 0 productV3)
    ∧ quotationsUpdate (.ok ()) [quoteV1, quoteV2] quoteV3
        = .ok ([quoteV1, quoteV2].set 0 quoteV3) := by
  refine ⟨?_, ?_, ?_, ?_⟩
  · exact (C8_update_missing_is_silent_noop (.error .quotaExceeded) [lockedProduct] []
      sampleProduct sampleQuote).1 (by decide)
  · exact (C8_update_missing_is_silent_noop (.error .quotaExceeded) [] []
      sampleProduct sampleQuote).2.1 (by decide)
  · exact (C8_update_missing_is_silent_noop (.ok ()) [productV1, productV2] []
      productV3 sampleQuote).2.2.1 0 (by decide)
  · exact (C8_update_missing_is_silent_noop (.ok ()) [] [quoteV1, quoteV2]
      sampleProduct quoteV3).2.2.2 0 (by decide)

/-- Claim C9: a quota-exceeded failure of the underlying storage write
makes every Store persist operation — add, update (with an existing
target), delete, saveAll, on both collections — surface the storage-full
error to its caller, while the one-time seed initialization catches the
same failure: initDB itself throws, but the module-level handler yields a
plain state and no error escapes. -/
theorem C9_quota_propagates_except_seed (stP : List Product)
    (stQ : List Quotation) (x : Product) (y : Quotation) (idP idQ : String)
    (i j : Nat)
    (hP : stP.findIdx? (fun p => p.id == x.id) = some i)
    (hQ : stQ.findIdx? (fun q => q.id == y.id) = some j) :
    productsAdd (.error .quotaExceeded) stP x = .error quotaMessage
    ∧ productsUpdate (.error .quotaExceeded) stP x = .error quotaMessage
    ∧ productsDelete (.error .quotaExceeded) stP idP = .error quotaMessage
    ∧ productsSaveAll (.error .quotaExceeded) stP = .error quotaMessage
    ∧ quotationsAdd (.error .quotaExceeded) stQ y = .error quotaMessage
    ∧ quotationsUpdate (.error .quotaExceeded) stQ y = .error quotaMessage
    ∧ quotationsDelete (.error .quotaExceeded) stQ idQ = .error quotaMessage
    ∧ (initDB (.error .quotaExceeded) (.error .quotaExceeded) none none).2 = some quotaMessage
    ∧ initDBCaught (.error .quotaExceeded) (.error .quotaExceeded) none none = (none, none) := by
  refine ⟨rfl, ?_, rfl, rfl, rfl, ?_, rfl, rfl, rfl⟩
  · simp only [productsUpdate, productsGetAll]
    rw [hP]
    rfl
  · simp only [quotationsUpdate, quotationsGetAll]
    rw [hQ]
    rfl

/-- Witness for C9 on singleton stores whose record ids match the updated
records. -/
theorem C9_quota_propagates_except_seed_witness :
    productsAdd (.error .quotaExceeded) [productV1] productV3 = .error quotaMessage
    ∧ productsUpdate (.error .quotaExceeded) [productV1] productV3 = .error quotaMessage
    ∧ productsDelete (.error .quotaExceeded) [productV1] "z" = .error quotaMessage
    ∧ productsSaveAll (.error .quotaExceeded) [productV1] = .error quotaMessage
    ∧ quotationsAdd (.error .quotaExceeded) [quoteV1] quoteV3 = .error quotaMessage
    ∧ quotationsUpdate (.error .quotaExceeded) [quoteV1] quoteV3 = .error quotaMessage
    ∧ quotationsDelete (.error .quotaExceeded) [quoteV1] "z" = .error quotaMessage
    ∧ (initDB (.error .quotaExceeded) (.error .quotaExceeded) none none).2 = some quotaMessage
    ∧ initDBCaught (.error .quotaExceeded) (.error .quotaExceeded) none none = (none, none) :=
  C9_quota_propagates_except_seed [productV1] [quoteV1] productV3 quoteV3 "z" "z" 0 0
    (by decide) (by decide)

/-- Claim C10: for any product list, sort key and column options, the
rows emitted into the catalog PDF come exactly from the products with
isActive = true — the row list is a permutation of the active filter, and
membership is equivalent to being a stored active product — in both the
current generator and the earlier revision. -/
theorem C10_catalog_rows_exactly_active (products : List Product)
    (options : CatalogExportOptions) (p : Product) :
    (generateCatalogRows products options).Perm
        (products.filter (fun q => q.isActive))
    ∧ (p ∈ generateCatalogRows products options ↔ p ∈ products ∧ p.isActive = true)
    ∧ (p ∈ generateCatalogRowsPart000 products ↔ p ∈ products ∧ p.isActive = true) := by
  have hperm : (generateCatalogRows products options).Perm
      (products.filter (fun q => q.isActive)) :=
    List.perm_insertionSort _ _
  refine ⟨hperm, ?_, ?_⟩
  · rw [hperm.mem_iff]
    simp [List.mem_filter]
  · simp [generateCatalogRowsPart000, List.mem_filter]
